import Mathlib

/-!
# Verification of the open-gpt-cli conversation-context and request-assembly core

Shallow embedding, translated from the Python sources:

* `src/context.py`  — `ConversationContext` (a `collections.deque` with `maxlen`)
* `src/api.py`      — `send_request` (header construction, payload construction,
                      fail-fast transport error handling)
* `src/opengpt.py`  — `main` (input dispatch loop, response handling)

JSON values are modelled by the inductive `Json`; Python dicts decoded from
JSON are association lists with (in practice) unique string keys, Python lists
are `List Json`.
-/

set_option autoImplicit false

/-- A decoded JSON value, as produced by `response.json()` / `json.loads`.
Numbers are modelled as integers (no claim depends on numeric values). -/
inductive Json where
  | null
  | bool (b : Bool)
  | num (n : Int)
  | str (s : String)
  | arr (xs : List Json)
  | obj (kvs : List (String × Json))

/-! ## Message model (src/context.py, src/api.py)

`add_user_message` builds `{"role": "user", "content": [{"type": "text",
"text": message}]}`; `add_assistant_message` the same with role `assistant`.
`send_request` with `history is None` builds the identical user-message shape
for the bare question. -/

/-- The dict built by `ConversationContext.add_user_message` (src/context.py)
and by `send_request` when no history is given (src/api.py line 48). -/
def userMessageJson (text : String) : Json :=
  .obj [("role", .str "user"),
        ("content", .arr [.obj [("type", .str "text"), ("text", .str text)]])]

/-- The dict built by `ConversationContext.add_assistant_message` (src/context.py). -/
def assistantMessageJson (text : String) : Json :=
  .obj [("role", .str "assistant"),
        ("content", .arr [.obj [("type", .str "text"), ("text", .str text)]])]

/-! ## Conversation context (src/context.py)

The buffer is `deque(maxlen=max_messages)`. `deque.append` keeps the last
`maxlen` elements: appending to a full deque discards the leftmost element
first, and a deque with `maxlen=0` stays empty. -/

/-- The last `n` elements of `l` (all of `l` when `l.length ≤ n`). -/
def takeLast {α : Type} (n : Nat) (l : List α) : List α :=
  l.drop (l.length - n)

/-- `deque(maxlen=maxlen).append(x)` on a deque currently holding `buf`:
the result holds the last `maxlen` elements of `buf ++ [x]`
(`collections.deque` semantics, including `maxlen=0`). -/
def dequeAppend {α : Type} (maxlen : Nat) (buf : List α) (x : α) : List α :=
  (buf ++ [x]).drop (buf.length + 1 - maxlen)

/-- `ConversationContext` (src/context.py): `self.history = deque(maxlen=max_messages)`,
modelled by the deque's contents plus its fixed `maxlen`. -/
structure ConversationContext where
  maxMessages : Nat
  history : List Json

/-- `ConversationContext.__init__` (default capacity 10). -/
def ConversationContext.init (maxMessages : Nat := 10) : ConversationContext :=
  ⟨maxMessages, []⟩

/-- `add_user_message`: appends the user-message dict to the deque. -/
def ConversationContext.add_user_message (c : ConversationContext) (message : String) :
    ConversationContext :=
  { c with history := dequeAppend c.maxMessages c.history (userMessageJson message) }

/-- `add_assistant_message`: appends the assistant-message dict to the deque. -/
def ConversationContext.add_assistant_message (c : ConversationContext) (message : String) :
    ConversationContext :=
  { c with history := dequeAppend c.maxMessages c.history (assistantMessageJson message) }

/-- `get_context`: `return list(self.history)` — the buffer, oldest first. -/
def ConversationContext.get_context (c : ConversationContext) : List Json :=
  c.history

/-- One addition operation on the context: either `add_user_message` or
`add_assistant_message` with the given text. -/
inductive AddOp where
  | user (text : String)
  | assistant (text : String)

/-- The message dict that an operation appends. -/
def AddOp.message : AddOp → Json
  | .user t => userMessageJson t
  | .assistant t => assistantMessageJson t

/-- Apply one addition to a context. -/
def AddOp.apply (c : ConversationContext) : AddOp → ConversationContext
  | .user t => c.add_user_message t
  | .assistant t => c.add_assistant_message t

/-- Run a sequence of additions left to right. -/
def runOps (c : ConversationContext) (ops : List AddOp) : ConversationContext :=
  ops.foldl (fun c op => op.apply c) c

/-! ## Request builder and headers (src/api.py `send_request`)

```python
headers = {"Authorization": f"Bearer {api_key}", "Content-Type": "application/json"}
if site_url:   headers["HTTP-Referer"] = site_url
if site_title: headers["X-Title"]      = site_title
if history is None:
    messages = [{"role": "user", "content": [{"type": "text", "text": question}]}]
else:
    messages = history
payload = {"model": model, "messages": messages}
```
`site_url` / `site_title` are `Optional[str]`; `if site_url:` is Python
truthiness, so both `None` and `""` are skipped. -/

/-- Python truthiness of an `Optional[str]`: `None` and `""` are falsy. -/
def optStrTruthy : Option String → Bool
  | none => false
  | some s => s ≠ ""

/-- The header dict built by `send_request` (src/api.py lines 36-44;
identically src/opengpt.py lines 18-26), as an insertion-ordered
key-value list (Python dict keys are unique; all four keys here differ). -/
def buildHeaders (api_key : String) (site_url site_title : Option String) :
    List (String × String) :=
  [("Authorization", "Bearer " ++ api_key), ("Content-Type", "application/json")]
    ++ (if optStrTruthy site_url then [("HTTP-Referer", site_url.getD "")] else [])
    ++ (if optStrTruthy site_title then [("X-Title", site_title.getD "")] else [])

/-- The `messages` value built by `send_request` (src/api.py lines 46-50):
a single user turn when `history is None`, otherwise `history` verbatim. -/
def buildMessages (question : String) (history : Option (List Json)) : List Json :=
  match history with
  | none => [userMessageJson question]
  | some h => h

/-- The request payload built by `send_request` (src/api.py lines 52-55):
`{"model": model, "messages": messages}`. -/
def buildPayload (question model : String) (history : Option (List Json)) : Json :=
  .obj [("model", .str model), ("messages", .arr (buildMessages question history))]

/-- First-match lookup in a decoded-JSON dict (Python `d[k]` on dicts with
unique keys; `json.loads` never produces duplicate keys). -/
def dictLookup (kvs : List (String × Json)) (k : String) : Option Json :=
  (kvs.find? (fun p => p.1 == k)).map (fun p => p.2)

/-! ## Transport outcome (src/api.py lines 65-74, src/opengpt.py lines 49-58)

```python
try:
    response = requests.post(url, headers=headers, json=payload)
    response.raise_for_status()
    return response.json()
except requests.exceptions.HTTPError as http_err:
    print(f"HTTP Error: {http_err}"); sys.exit(1)
except Exception as err:
    print(f"Error: {err}"); sys.exit(1)
```
`requests.Response.raise_for_status` raises `HTTPError` exactly when
`400 <= status_code < 600` (4xx client errors and 5xx server errors; other
statuses, including 1xx/3xx, do not raise). `response.json()` raises a
`ValueError` on an unparsable body, which the second `except` also turns into
`sys.exit(1)`. A single POST is issued per call — there is no retry loop. -/

/-- Result of the single `requests.post` call: either a response with a status
code and a body (`none` = body not parsable as JSON), or a raised network-level
exception (connection error, timeout, ...). -/
inductive HttpResult where
  | response (status : Nat) (body : Option Json)
  | networkError (message : String)

/-- What `send_request` does after the POST: return the decoded JSON, or
terminate the process via `sys.exit(code)`. -/
inductive TransportResult where
  | returns (body : Json)
  | exits (code : Nat)

/-- `status` is a 2xx (success) HTTP status. -/
def is2xx (status : Nat) : Prop := 200 ≤ status ∧ status < 300

/-- The post-POST behaviour of `send_request` (src/api.py lines 65-74 and
src/opengpt.py lines 49-58): `raise_for_status` raises for 4xx/5xx (caught,
`sys.exit(1)`); any other exception, including a JSON parse failure and any
network error, is caught and also ends in `sys.exit(1)`; otherwise the decoded
body is returned. -/
def send_request_outcome : HttpResult → TransportResult
  | .networkError _ => .exits 1
  | .response status body =>
      if 400 ≤ status ∧ status < 600 then .exits 1
      else match body with
        | some j => .returns j
        | none => .exits 1

/-- The failure conditions under which `send_request` terminates the process:
a network-level exception, a 4xx/5xx status, or an unparsable body. -/
def transportFatal : HttpResult → Prop
  | .networkError _ => True
  | .response status body => (400 ≤ status ∧ status < 600) ∨ body = none

/-! ## Interaction-loop input dispatch (src/opengpt.py `main`, lines 141-166)

```python
question = input(">> ").strip()
if question.lower() in ['exit', 'quit']: ... break
if question.startswith("/export-"):     ... continue
main.last_question = question
result = send_request(question, api_key, model, site_url, site_title, console=console)
```
There is no test for empty input: any stripped line that is neither an exit
keyword nor an `/export-` command is passed to `send_request`. -/

/-- The whitespace characters removed by Python `str.strip()` (ASCII range;
Python also strips some further Unicode spaces, which no claim involves). -/
def pyIsSpace (c : Char) : Bool :=
  c == ' ' || c == '\t' || c == '\n' || c == '\r' || c == '\x0b' || c == '\x0c'

/-- Python `s.strip()`: remove leading and trailing whitespace. -/
def pyStrip (s : String) : String :=
  ⟨((s.data.dropWhile pyIsSpace).reverse.dropWhile pyIsSpace).reverse⟩

/-- ASCII lower-casing of one character (what `str.lower()` does on the
ASCII inputs compared against `'exit'` / `'quit'`). -/
def pyLowerChar (c : Char) : Char :=
  if 'A' ≤ c && c ≤ 'Z' then Char.ofNat (c.toNat + 32) else c

/-- Python `s.lower()`. -/
def pyLower (s : String) : String := ⟨s.data.map pyLowerChar⟩

/-- Python `s.startswith(pre)`. -/
def pyStartsWith (s pre : String) : Bool := pre.data.isPrefixOf s.data

/-- What one loop iteration does with a raw input line. `request q` means the
loop stores `q` as the last question and calls `send_request` with it. -/
inductive LoopAction where
  | exitLoop
  | exportCmd (cmd : String)
  | request (question : String)
  deriving DecidableEq

/-- The input dispatch of `main`'s loop body (src/opengpt.py lines 143-166):
`question = input(">> ").strip()`, then the exit-keyword test, then the
`/export-` test; everything else (including the empty string) is sent to
`send_request`. -/
def classifyInput (raw : String) : LoopAction :=
  let question := pyStrip raw
  if pyLower question = "exit" ∨ pyLower question = "quit" then .exitLoop
  else if pyStartsWith question "/export-" then .exportCmd question
  else .request question

/-! ## Response handling (src/opengpt.py `main`, lines 169-200)

```python
if "error" in result:
    console.print("... Error:", result["error"]); console.print_json(data=result)
else:
    try:
        content = result["choices"][0]["message"]["content"]
        ...
    except Exception as e:
        console.print(f"... Error extracting content: {e}"); console.print_json(data=result)
```
The `in` test and the `result["error"]` subscript run *outside* the
`try`, so the exceptions they can raise on non-dict results are uncaught and
terminate the process. Inside the `try`, every exception raised by the
chained subscripts is caught. Python subscript semantics on decoded JSON:
dicts index by string key (`KeyError` if absent, and `KeyError` for an integer
index since decoded keys are strings); lists index by integer (`IndexError`
out of range, `TypeError` for a string index); strings index by integer
(`IndexError` out of range, 1-character string result, `TypeError` for a
string index); numbers, booleans and `None` are not subscriptable
(`TypeError`). `"error" in x` is key membership for dicts, element equality
for lists, substring test for strings, and `TypeError` otherwise. -/

/-- A Python exception raised during subscripting / membership tests. -/
inductive PyExn where
  | keyError
  | indexError
  | typeError

/-- Python `x[key]` for a string `key` on a decoded JSON value. -/
def pyIndexStr : Json → String → Except PyExn Json
  | .obj kvs, k =>
      match kvs.find? (fun p => p.1 == k) with
      | some p => .ok p.2
      | none => .error .keyError
  | _, _ => .error .typeError

/-- Python `x[i]` for a non-negative integer `i` on a decoded JSON value. -/
def pyIndexNat : Json → Nat → Except PyExn Json
  | .arr xs, i => if _ : i < xs.length then .ok (xs.getD i .null) else .error .indexError
  | .str s, i =>
      if i < s.length then .ok (.str (String.singleton (s.data.getD i ' ')))
      else .error .indexError
  | .obj _, _ => .error .keyError
  | _, _ => .error .typeError

/-- `True` iff the decoded JSON value equals the Python string `"error"`
(Python `==` against a string is only true for equal strings). -/
def isStrError : Json → Bool
  | .str s => s == "error"
  | _ => false

/-- Python substring test `"error" in s` for a string `s`. -/
def strContainsError (s : String) : Bool :=
  decide (List.IsInfix "error".data s.data)

/-- Python `"error" in result` on a decoded JSON value: key membership for
dicts, element membership for lists, substring test for strings, `TypeError`
otherwise. -/
def pyContainsError : Json → Except PyExn Bool
  | .obj kvs => .ok (kvs.any (fun p => p.1 == "error"))
  | .arr xs => .ok (xs.any isStrError)
  | .str s => .ok (strContainsError s)
  | _ => .error .typeError

/-- The chained extraction `result["choices"][0]["message"]["content"]`
(src/opengpt.py line 177). -/
def extractContent (result : Json) : Except PyExn Json := do
  let c ← pyIndexStr result "choices"
  let c0 ← pyIndexNat c 0
  let m ← pyIndexStr c0 "message"
  pyIndexStr m "content"

/-- Outcome of the response-handling part of one loop iteration.
`apiError` and `malformed` display the error and the full raw structure and
the loop continues; `success` renders the content; `crash` is an uncaught
exception that terminates the process. -/
inductive LoopOutcome where
  | apiError (detail : Json) (raw : Json)
  | malformed (exn : PyExn) (raw : Json)
  | success (content : Json)
  | crash

/-- The response handling of `main` (src/opengpt.py lines 169-200): the
`"error" in result` test (uncaught exceptions crash), then `result["error"]`
(also uncaught), else the guarded extraction whose exceptions are all caught
by `except Exception`. -/
def handleResult (result : Json) : LoopOutcome :=
  match pyContainsError result with
  | .error _ => .crash
  | .ok true =>
      match pyIndexStr result "error" with
      | .ok v => .apiError v result
      | .error _ => .crash
  | .ok false =>
      match extractContent result with
      | .ok content => .success content
      | .error e => .malformed e result

/-! ## Heap model for `get_context` snapshot semantics (src/context.py line 51)

`get_context` returns `list(self.history)`: Python's `list(...)` constructor
allocates a *new* list object holding the deque's current elements, so
caller-side mutation of the returned list cannot reach the internal buffer.
To state this aliasing property we model Python's object heap explicitly: a
store of list objects addressed by index, where the context's internal deque
contents live in one cell and `list(...)` allocates a fresh cell. -/

/-- A heap of Python list objects (each cell is one list object's contents). -/
abbrev Store : Type := List (List Json)

/-- Read the contents of the list object at address `r`. -/
def readRef (st : Store) (r : Nat) : List Json :=
  st.getD r []

/-- Overwrite the contents of the list object at address `r` (in-place
mutation of that object). -/
def writeRef (st : Store) (r : Nat) (v : List Json) : Store :=
  st.set r v

/-- A `ConversationContext` whose `self.history` deque contents live at heap
address `bufRef`. -/
structure CtxRef where
  maxMessages : Nat
  bufRef : Nat

/-- `get_context` in the heap model: `list(self.history)` allocates a fresh
list object (a new cell at the end of the store) holding a copy of the deque's
current elements, and returns its address. -/
def getContextAlloc (c : CtxRef) (st : Store) : Store × Nat :=
  (st ++ [readRef st c.bufRef], st.length)

/-- An arbitrary caller-side in-place mutation of the list object at `r`
(append, delete, reorder, clear, ... — any function of its old contents). -/
def mutateRef (st : Store) (r : Nat) (f : List Json → List Json) : Store :=
  writeRef st r (f (readRef st r))

/-! ## Concrete example data used by witnesses -/

/-- The spec's end-to-end scenario: add user "hi", add assistant "hello",
add user "how are you". -/
def demoOps : List AddOp :=
  [.user "hi", .assistant "hello", .user "how are you"]

def payloadField (p : Json) (k : String) : Option Json :=
  match p with
  | .obj kvs => dictLookup kvs k
  | _ => none

/-- The spec's example 3-message history. -/
def demoHistory : List Json :=
  [userMessageJson "hi", assistantMessageJson "hello", userMessageJson "how are you"]

/-! # Supporting lemmas -/

/-! ### `takeLast` lemmas -/

theorem takeLast_length {α : Type} (n : Nat) (l : List α) :
    (takeLast n l).length = l.length - (l.length - n) := by
  simp [takeLast]

theorem takeLast_of_length_le {α : Type} {n : Nat} {l : List α} (h : l.length ≤ n) :
    takeLast n l = l := by
  unfold takeLast
  rw [Nat.sub_eq_zero_of_le h, List.drop_zero]

theorem takeLast_nil {α : Type} (n : Nat) : takeLast n ([] : List α) = [] := by
  simp [takeLast]

theorem dequeAppend_eq_takeLast {α : Type} (maxlen : Nat) (buf : List α) (x : α) :
    dequeAppend maxlen buf x = takeLast maxlen (buf ++ [x]) := by
  simp [dequeAppend, takeLast]

/-- Appending one element to an already-clipped buffer and clipping again is
the same as clipping the whole extended list: `deque` append preserves the
"last `n` elements" characterisation. -/
theorem takeLast_append_singleton {α : Type} (n : Nat) (l : List α) (x : α) :
    takeLast n (takeLast n l ++ [x]) = takeLast n (l ++ [x]) := by
  by_cases h : l.length ≤ n
  · rw [takeLast_of_length_le h]
  · push_neg at h
    have hd : (takeLast n l).length = n := by
      rw [takeLast_length]; omega
    rcases Nat.eq_zero_or_pos n with hn | hn
    · subst hn
      have e : ∀ m : List α, takeLast 0 m = [] := by
        intro m; simp [takeLast]
      simp [e]
    · obtain ⟨d, hgen⟩ : ∃ d, takeLast n l = d := ⟨_, rfl⟩
      rw [hgen] at hd ⊢
      show takeLast n (d ++ [x]) = takeLast n (l ++ [x])
      unfold takeLast
      rw [List.length_append, List.length_append, hd]
      simp only [List.length_cons, List.length_nil]
      have h1 : n + 1 - n = 1 := by omega
      rw [h1]
      rw [List.drop_append_of_le_length (by omega : 1 ≤ d.length),
          List.drop_append_of_le_length (by omega : l.length + 1 - n ≤ l.length)]
      congr 1
      rw [← hgen]
      unfold takeLast
      rw [List.drop_drop]
      congr 1
      omega

/-- A clipped buffer is a fixed point of clipping. -/
theorem takeLast_takeLast {α : Type} (n : Nat) (l : List α) :
    takeLast n (takeLast n l) = takeLast n l := by
  apply takeLast_of_length_le
  rw [takeLast_length]
  omega

/-- Running a sequence of additions on a context whose buffer is already
clipped to capacity `K` leaves the last `K` of the old buffer followed by all
appended messages. -/
theorem runOps_history (ops : List AddOp) :
    ∀ buf : List Json, ∀ K : Nat,
    (runOps ⟨K, takeLast K buf⟩ ops).history = takeLast K (buf ++ ops.map AddOp.message) := by
  induction ops with
  | nil => intro buf K; simp [runOps]
  | cons op ops ih =>
    intro buf K
    have step' : AddOp.apply ⟨K, takeLast K buf⟩ op
        = ⟨K, takeLast K (buf ++ [op.message])⟩ := by
      cases op <;>
        simp [AddOp.apply, AddOp.message, ConversationContext.add_user_message,
          ConversationContext.add_assistant_message, dequeAppend_eq_takeLast,
          takeLast_append_singleton]
    show (runOps (AddOp.apply ⟨K, takeLast K buf⟩ op) ops).history = _
    rw [step', ih (buf ++ [op.message]) K]
    simp [List.map_cons]

/-- The buffer of a fresh capacity-`K` context after any sequence of additions
is exactly the last `K` appended messages. -/
theorem runOps_init_history (K : Nat) (ops : List AddOp) :
    (runOps (ConversationContext.init K) ops).history = takeLast K (ops.map AddOp.message) := by
  have h := runOps_history ops [] K
  simpa [ConversationContext.init, takeLast_nil] using h

/-! # Claims -/

/-- C1: for every capacity `K` and every sequence of `N` additions through
`add_user_message`/`add_assistant_message` with `K < N`, `get_context` of the
resulting context has length exactly `K` and equals the last `K` added
messages, in the order they were added (oldest first, newest last). -/
theorem getContext_lastK (K : Nat) (ops : List AddOp) (h : K < ops.length) :
    (runOps (ConversationContext.init K) ops).get_context.length = K ∧
    (runOps (ConversationContext.init K) ops).get_context
      = (ops.map AddOp.message).drop (ops.length - K) := by
  have hh := runOps_init_history K ops
  constructor
  · rw [ConversationContext.get_context, hh, takeLast_length, List.length_map]
    omega
  · rw [ConversationContext.get_context, hh]
    unfold takeLast
    rw [List.length_map]

/-- Witness for `getContext_lastK`: the spec's capacity-2 scenario
(3 additions, first user message evicted). -/
theorem getContext_lastK_witness :
    (runOps (ConversationContext.init 2) demoOps).get_context.length = 2 ∧
    (runOps (ConversationContext.init 2) demoOps).get_context
      = (demoOps.map AddOp.message).drop (demoOps.length - 2) :=
  getContext_lastK 2 demoOps (by decide)

/-- C8: after every operation sequence the buffer is exactly the last
`K`-or-fewer appended messages (count-based FIFO eviction and nothing else —
no deduplication, merging, or character-count eviction), so its length never
exceeds the capacity `K`, and fewer than `K` additions to a fresh context
never evict anything. -/
theorem context_capacity_invariant (K : Nat) (ops : List AddOp) :
    (runOps (ConversationContext.init K) ops).history
        = takeLast K (ops.map AddOp.message) ∧
    (runOps (ConversationContext.init K) ops).history.length ≤ K ∧
    (ops.length < K →
      (runOps (ConversationContext.init K) ops).history = ops.map AddOp.message) := by
  have hh := runOps_init_history K ops
  refine ⟨hh, ?_, ?_⟩
  · rw [hh, takeLast_length]
    omega
  · intro hlt
    rw [hh]
    apply takeLast_of_length_le
    rw [List.length_map]
    omega

/-- Witness for `context_capacity_invariant`: 3 additions to a capacity-5
context leave all 3 messages in order, nothing evicted. -/
theorem context_capacity_invariant_witness :
    (runOps (ConversationContext.init 5) demoOps).history = demoOps.map AddOp.message :=
  (context_capacity_invariant 5 demoOps).2.2 (by decide)

/-- C7: `get_context` hands back a freshly allocated copy of the buffer, so
any in-place mutation the caller performs on the returned list leaves the
context's internal buffer unchanged, and a subsequent `get_context` returns
the same contents as if no mutation had happened. -/
theorem getContext_snapshot_isolation (c : CtxRef) (st : Store)
    (h : c.bufRef < st.length) (f : List Json → List Json) :
    readRef (mutateRef (getContextAlloc c st).1 (getContextAlloc c st).2 f) c.bufRef
      = readRef st c.bufRef ∧
    readRef (getContextAlloc c (mutateRef (getContextAlloc c st).1
          (getContextAlloc c st).2 f)).1
        (getContextAlloc c (mutateRef (getContextAlloc c st).1
          (getContextAlloc c st).2 f)).2
      = readRef st c.bufRef := by
  have hne : st.length ≠ c.bufRef := by omega
  have h1 :
      readRef (mutateRef (getContextAlloc c st).1 (getContextAlloc c st).2 f) c.bufRef
        = readRef st c.bufRef := by
    show readRef ((st ++ [readRef st c.bufRef]).set st.length _) c.bufRef = _
    simp only [readRef, List.getD_eq_getElem?_getD, List.getElem?_set_ne hne]
    rw [← List.getD_eq_getElem?_getD, ← List.getD_eq_getElem?_getD,
      List.getD_append _ _ _ _ h]
  refine ⟨h1, ?_⟩
  show readRef (_ ++ [readRef (mutateRef _ _ f) c.bufRef])
      (mutateRef (getContextAlloc c st).1 (getContextAlloc c st).2 f).length = _
  rw [readRef, List.getD_append_right _ _ _ _ (Nat.le_refl _), Nat.sub_self]
  simpa [List.getD] using h1

/-- Witness for `getContext_snapshot_isolation`: a one-cell heap whose single
list object is the internal buffer, mutated by clearing the returned copy. -/
theorem getContext_snapshot_isolation_witness :
    readRef (mutateRef (getContextAlloc ⟨10, 0⟩ [[userMessageJson "hi"]]).1
        (getContextAlloc ⟨10, 0⟩ [[userMessageJson "hi"]]).2 (fun _ => []))
      (CtxRef.bufRef ⟨10, 0⟩) = readRef [[userMessageJson "hi"]] (CtxRef.bufRef ⟨10, 0⟩) ∧
    readRef (getContextAlloc ⟨10, 0⟩ (mutateRef (getContextAlloc ⟨10, 0⟩
          [[userMessageJson "hi"]]).1
        (getContextAlloc ⟨10, 0⟩ [[userMessageJson "hi"]]).2 (fun _ => []))).1
      (getContextAlloc ⟨10, 0⟩ (mutateRef (getContextAlloc ⟨10, 0⟩
          [[userMessageJson "hi"]]).1
        (getContextAlloc ⟨10, 0⟩ [[userMessageJson "hi"]]).2 (fun _ => []))).2
      = readRef [[userMessageJson "hi"]] (CtxRef.bufRef ⟨10, 0⟩) :=
  getContext_snapshot_isolation ⟨10, 0⟩ [[userMessageJson "hi"]] (by decide) (fun _ => [])

/-- C2 counterexample: the builder distinguishes absent (`None`) from empty
history — `if history is None` is false for `[]`, so an *empty* history is
used verbatim and the payload's messages are `[]`, not the single-element
user-turn sequence the claim requires. -/
theorem buildMessages_empty_history_counterexample :
    buildMessages "What is 2+2?" (some []) = [] ∧
    ([] : List Json) ≠ [userMessageJson "What is 2+2?"] :=
  ⟨rfl, (List.cons_ne_nil _ _).symm⟩

/-- C2 (amended): only when `history` is absent (`None`) does the builder
produce the single-element sequence `[{role:user, content:[{type:text,
text:question}]}]`; an empty history is passed through verbatim, giving an
empty messages sequence. -/
theorem buildMessages_no_history (question model : String) :
    buildPayload question model none
      = Json.obj [("model", Json.str model),
                  ("messages", Json.arr [userMessageJson question])] ∧
    buildPayload question model (some [])
      = Json.obj [("model", Json.str model), ("messages", Json.arr [])] :=
  ⟨rfl, rfl⟩

/-- C3: with a non-empty history the payload's `messages` field is that
history verbatim — nothing added, removed or reordered — and its `model`
field is the given model string unmodified. -/
theorem buildPayload_history_verbatim (question model : String) (h : List Json)
    (_hne : h ≠ []) :
    payloadField (buildPayload question model (some h)) "messages" = some (Json.arr h) ∧
    payloadField (buildPayload question model (some h)) "model" = some (Json.str model) :=
  ⟨rfl, rfl⟩

/-- Witness for `buildPayload_history_verbatim` on the spec's 3-message
history. -/
theorem buildPayload_history_verbatim_witness :
    payloadField (buildPayload "What is 2+2?" "openai/gpt-4o" (some demoHistory)) "messages"
      = some (Json.arr demoHistory) ∧
    payloadField (buildPayload "What is 2+2?" "openai/gpt-4o" (some demoHistory)) "model"
      = some (Json.str "openai/gpt-4o") :=
  buildPayload_history_verbatim "What is 2+2?" "openai/gpt-4o" demoHistory
    (by simp [demoHistory])

/-- C10: when a history is supplied (`history is not None`), the question
argument plays no part in the payload: two calls differing only in the
question build identical payloads (and the headers never involve the
question at all). -/
theorem buildPayload_ignores_question_with_history (q1 q2 model : String)
    (h : List Json) :
    buildPayload q1 model (some h) = buildPayload q2 model (some h) :=
  rfl

/-- C6: the headers always contain `Authorization: Bearer <api_key>` and
`Content-Type: application/json`; `HTTP-Referer` is present with value `u`
iff `site_url` is `u` and non-empty, and `X-Title` is present with value `t`
iff `site_title` is `t` and non-empty (Python truthiness: `None` and `""`
both omit the header, so no empty-string header is ever sent). -/
theorem buildHeaders_spec (api_key : String) (site_url site_title : Option String) :
    ("Authorization", "Bearer " ++ api_key) ∈ buildHeaders api_key site_url site_title ∧
    ("Content-Type", "application/json") ∈ buildHeaders api_key site_url site_title ∧
    (∀ u : String, ("HTTP-Referer", u) ∈ buildHeaders api_key site_url site_title
        ↔ (site_url = some u ∧ u ≠ "")) ∧
    (∀ t : String, ("X-Title", t) ∈ buildHeaders api_key site_url site_title
        ↔ (site_title = some t ∧ t ≠ "")) := by
  refine ⟨?_, ?_, ?_, ?_⟩
  · simp [buildHeaders]
  · simp [buildHeaders]
  · intro u
    cases site_url with
    | none => simp [buildHeaders, optStrTruthy]
    | some s =>
        by_cases hs : s = ""
        · subst hs
          simp [buildHeaders, optStrTruthy]
          exact fun h => h.symm
        · simp [buildHeaders, optStrTruthy, hs]
          constructor
          · intro h
            subst h
            exact ⟨rfl, hs⟩
          · rintro ⟨h1, -⟩
            exact h1.symm
  · intro t
    cases site_title with
    | none => simp [buildHeaders, optStrTruthy]
    | some s =>
        by_cases hs : s = ""
        · subst hs
          simp [buildHeaders, optStrTruthy]
          exact fun h => h.symm
        · simp [buildHeaders, optStrTruthy, hs]
          constructor
          · intro h
            subst h
            exact ⟨rfl, hs⟩
          · rintro ⟨h1, -⟩
            exact h1.symm

/-- C4 counterexample: a non-2xx status below 400 is *not* a
`raise_for_status` failure — on a status-300 response with a parsable JSON
body, `send_request` returns the decoded body instead of terminating, so
"non-2xx ⇒ terminate" is false as stated. -/
theorem transport_non2xx_returns_counterexample :
    ¬ is2xx 300 ∧
    send_request_outcome (HttpResult.response 300 (some (Json.obj [])))
      = TransportResult.returns (Json.obj []) :=
  ⟨by simp [is2xx], rfl⟩

/-- C4 (amended): on every transport-level failure that the code actually
treats as fatal — a network-level exception, a 4xx/5xx status (what
`requests.Response.raise_for_status` raises for), or an unparsable body —
`send_request` never returns a value: it reports the error and calls
`sys.exit(1)` (a non-zero exit status), with no retry (a single POST is
issued per call). Statuses outside 400-599 with parsable bodies are returned. -/
theorem transport_fatal_exits (r : HttpResult) (h : transportFatal r) :
    send_request_outcome r = TransportResult.exits 1 ∧
    ∀ body, send_request_outcome r ≠ TransportResult.returns body := by
  have hx : send_request_outcome r = TransportResult.exits 1 := by
    cases r with
    | networkError m => rfl
    | response s b =>
        rcases h with h | h
        · simp only [send_request_outcome]
          rw [if_pos h]
        · subst h
          simp only [send_request_outcome]
          split
          · rfl
          · rfl
  refine ⟨hx, ?_⟩
  rw [hx]
  intro body hcon
  exact TransportResult.noConfusion hcon

/-- Witness for `transport_fatal_exits`: a raised network error. -/
theorem transport_fatal_exits_witness :
    send_request_outcome (HttpResult.networkError "connection refused")
      = TransportResult.exits 1 ∧
    ∀ body, send_request_outcome (HttpResult.networkError "connection refused")
      ≠ TransportResult.returns body :=
  transport_fatal_exits (HttpResult.networkError "connection refused") trivial

/-- C5 counterexample: on the decoded JSON response `5` (a bare number), the
test `"error" in result` raises an uncaught `TypeError` outside the `try`
block, so the response handling produces none of the three claimed outcomes
and the process terminates — the trichotomy does not hold for every raw
decoded JSON response. -/
theorem handleResult_crash_counterexample :
    handleResult (Json.num 5) = LoopOutcome.crash ∧
    ¬ (∀ result : Json, handleResult result ≠ LoopOutcome.crash) :=
  ⟨rfl, fun h => h (Json.num 5) rfl⟩

/-- C5 (amended): for every raw decoded JSON response that is a top-level
object, the response handling produces exactly one of three outcomes: if the
`"error"` key is present, `apiError` with the error value (and the raw
structure for display); otherwise `success` with
`choices[0].message.content` when that path extracts, else `malformed` with
the raised exception — and never `crash`, i.e. in the two failure cases the
loop continues and the process is not terminated. (Non-object responses can
instead crash the process, e.g. `handleResult_crash_counterexample`.) -/
theorem handleResult_obj_trichotomy (kvs : List (String × Json)) :
    handleResult (Json.obj kvs)
      = (match dictLookup kvs "error" with
         | some v => LoopOutcome.apiError v (Json.obj kvs)
         | none =>
             match extractContent (Json.obj kvs) with
             | .ok c => LoopOutcome.success c
             | .error e => LoopOutcome.malformed e (Json.obj kvs)) ∧
    handleResult (Json.obj kvs) ≠ LoopOutcome.crash := by
  cases hf : kvs.find? (fun p => p.1 == "error") with
  | none =>
      have hany : (kvs.any fun p => p.1 == "error") = false := by
        cases ha : kvs.any fun p => p.1 == "error"
        · rfl
        · exfalso
          rw [List.any_eq_true] at ha
          obtain ⟨x, hx, hpx⟩ := ha
          exact absurd hpx (List.find?_eq_none.mp hf x hx)
      have hmain : handleResult (Json.obj kvs)
          = (match extractContent (Json.obj kvs) with
             | .ok c => LoopOutcome.success c
             | .error e => LoopOutcome.malformed e (Json.obj kvs)) := by
        simp only [handleResult, pyContainsError, hany]
      constructor
      · rw [hmain]
        simp only [dictLookup, hf, Option.map_none']
      · rw [hmain]
        split
        · intro hcon; exact LoopOutcome.noConfusion hcon
        · intro hcon; exact LoopOutcome.noConfusion hcon
  | some kv =>
      have hany : (kvs.any fun p => p.1 == "error") = true := by
        rw [List.any_eq_true]
        refine ⟨kv, List.mem_of_find?_eq_some hf, ?_⟩
        exact List.find?_some (p := fun q : String × Json => q.1 == "error") hf
      have hmain : handleResult (Json.obj kvs)
          = LoopOutcome.apiError kv.2 (Json.obj kvs) := by
        simp only [handleResult, pyContainsError, hany, pyIndexStr, hf]
      constructor
      · rw [hmain]
        simp only [dictLookup, hf, Option.map_some']
      · rw [hmain]
        intro hcon
        exact LoopOutcome.noConfusion hcon

/-- C9 counterexample: a blank input line is *not* rejected locally — after
stripping it is neither an exit keyword nor an `/export-` command, so `main`
stores it as the last question and calls `send_request` with the empty
question (an HTTP request is made). -/
theorem blank_input_sends_request_counterexample :
    classifyInput " " = LoopAction.request "" ∧
    classifyInput "" = LoopAction.request "" := by
  constructor
  · decide
  · decide

/-- C9 (amended): empty or whitespace-only input receives no special local
handling: every line that strips to the empty string is dispatched to
`send_request` as an (empty) question; the loop never re-prompts without
making the request. -/
theorem blank_input_not_rejected (s : String) (h : pyStrip s = "") :
    classifyInput s = LoopAction.request "" := by
  simp [classifyInput, h]
  decide

/-- Witness for `blank_input_not_rejected` at a three-space input line. -/
theorem blank_input_not_rejected_witness :
    classifyInput "   " = LoopAction.request "" :=
  blank_input_not_rejected "   " (by decide)
